import Mathlib

/-!
Verification of the menu-project repository: a shallow embedding of the
two PDF-generation pipelines.

* `MenuPDFGenerator` embeds the document builder of `generate_menu.py`:
  the `story` field is the list of layout blocks accumulated by the
  `add_*` methods, and the filesystem is abstracted as a predicate
  `fs : String → Bool` standing for `os.path.exists`.
* `generate_pdf` embeds the control flow of `generate_menu_from_html.py`:
  the HTML renderer is abstracted as a function returning `Except String Unit`
  (an exception being the `.error` case), and the printed diagnostics and
  renderer invocations are recorded explicitly.

Styling details that carry no data (colors, paddings, column widths) are
dropped; every block kind, every piece of text, the order of appends and
every conditional on the filesystem are kept exactly as in the source.
-/

/-- The contents of the name cell of a menu-item row: either an icon image
followed by the name paragraph (the `Table` built in the vegan/vegetarian
branches of `add_menu_item`), or the bare name paragraph.  The stored text
is the paragraph markup built by the source, `"<b>" ++ name ++ "</b>"`. -/
inductive NameCell where
  | withIcon (iconPath : String) (text : String)
  | plain (text : String)
deriving DecidableEq

/-- The paragraph text held in a name cell (the same in both shapes). -/
def NameCell.text : NameCell → String
  | .withIcon _ t => t
  | .plain t => t

/-- One flowable appended to `self.story` by the builder.  Spacer heights
are in hundredths of an inch; rules carry their side (above or below),
thickness in points and color. -/
inductive Block where
  | spacer (h : Nat)
  | hrule (above : Bool) (thickness : Nat) (color : String)
  | image (path : String)
  | paragraph (text : String)
  | boxedParagraph (text : String)
  | sectionHeader (text : String)
  | itemTable (nameCell : NameCell) (priceText : String) (descText : String)
  | infoTable (text : String)
  | contactTitle (text : String)
  | contactDetails (text : String)
  | ctaButton (text : String)
  | pageBreak
deriving DecidableEq

/-- Is this block a menu-item row (`item_table` in `add_menu_item`)? -/
def Block.isItemTable : Block → Bool
  | .itemTable _ _ _ => true
  | _ => false

/-- Is this block a section header (`header_table` in `add_section`)? -/
def Block.isSectionHeader : Block → Bool
  | .sectionHeader _ => true
  | _ => false

/-- Is this block an `Image` flowable? -/
def Block.isImage : Block → Bool
  | .image _ => true
  | _ => false

/-- Is this block a `Spacer` flowable? -/
def Block.isSpacer : Block → Bool
  | .spacer _ => true
  | _ => false

/-- The hardcoded vegan-icon path assigned in `__init__`. -/
def vegan_icon_file : String := "C:\\Users\\mbike\\Downloads\\vegan-sigle.jpg"

/-- The hardcoded vegetarian-icon path assigned in `__init__`. -/
def vegetarian_icon_file : String := "C:\\Users\\mbike\\Downloads\\vegetarian-sigle.jpg"

/-- A menu item as passed to `add_section` in `main`: the dictionary keys
`name`, `description`, `price` and the two optional dietary flags (absent
keys default to `False` via `item.get`). -/
structure MenuItem where
  name : String
  description : String
  price : String
  is_vegan : Bool
  is_vegetarian : Bool
deriving DecidableEq

/-- The state of `MenuPDFGenerator`: output filename, accumulated story and
the two hardcoded dietary-icon paths set in `__init__`. -/
structure MenuPDFGenerator where
  filename : String
  story : List Block
  vegan_icon_path : String
  vegetarian_icon_path : String
deriving DecidableEq

/-- Constructor `MenuPDFGenerator.__init__`: empty story, hardcoded icon paths. -/
def MenuPDFGenerator.init (filename : String) : MenuPDFGenerator :=
  { filename := filename
    story := []
    vegan_icon_path := vegan_icon_file
    vegetarian_icon_path := vegetarian_icon_file }

/-- The `dietary_content` computation at the top of `add_menu_item`: the
vegan branch fires when `is_vegan` is set and the vegan icon path is
truthy and exists; otherwise the vegetarian branch is tried the same way;
otherwise the bare name paragraph is used. -/
def MenuPDFGenerator.dietary_content (g : MenuPDFGenerator) (fs : String → Bool)
    (name : String) (is_vegan : Bool) (is_vegetarian : Bool) : NameCell :=
  if is_vegan && g.vegan_icon_path != "" && fs g.vegan_icon_path then
    .withIcon g.vegan_icon_path ("<b>" ++ name ++ "</b>")
  else if is_vegetarian && g.vegetarian_icon_path != "" && fs g.vegetarian_icon_path then
    .withIcon g.vegetarian_icon_path ("<b>" ++ name ++ "</b>")
  else
    .plain ("<b>" ++ name ++ "</b>")

/-- Method `add_menu_item`: appends the two-row item table (name cell and bold
price on the first row, description on the second) and a tiny spacer. -/
def MenuPDFGenerator.add_menu_item (g : MenuPDFGenerator) (fs : String → Bool)
    (name : String) (description : String) (price : String)
    (is_vegan : Bool) (is_vegetarian : Bool) : MenuPDFGenerator :=
  { g with story := g.story ++
      [Block.itemTable (g.dietary_content fs name is_vegan is_vegetarian)
        ("<b>" ++ price ++ "</b>") description,
       Block.spacer 1] }

/-- Method `add_cover_page`: spacer, green top rule, spacer, the logo image and a
spacer only when the path is truthy and exists, the boxed cuisine line,
spacer, the location line, spacer, green bottom rule, page break. -/
def MenuPDFGenerator.add_cover_page (g : MenuPDFGenerator) (fs : String → Bool)
    (logo_path : String) : MenuPDFGenerator :=
  { g with story := g.story ++
      [Block.spacer 8, Block.hrule true 2 "#1a5d3f", Block.spacer 15] ++
      (if logo_path != "" && fs logo_path then
        [Block.image logo_path, Block.spacer 12]
      else []) ++
      [Block.boxedParagraph "✦ Authentic Lebanese & Syrian Cuisine ✦",
       Block.spacer 8,
       Block.paragraph "Brussels, Belgium • 2025",
       Block.spacer 15,
       Block.hrule false 2 "#1a5d3f",
       Block.pageBreak] }

/-- The `for item in items` loop of `add_section`: each item is handed to
`add_menu_item` with the dictionary fields, defaults applied. -/
def MenuPDFGenerator.addItems (g : MenuPDFGenerator) (fs : String → Bool)
    (items : List MenuItem) : MenuPDFGenerator :=
  items.foldl (fun acc it =>
    acc.add_menu_item fs it.name it.description it.price it.is_vegan it.is_vegetarian) g

/-- Method `add_section`: gold top rule, the header table showing `title.upper()`,
gold bottom rule, spacer, then every item through `add_menu_item` in input
order, then a closing spacer. -/
def MenuPDFGenerator.add_section (g : MenuPDFGenerator) (fs : String → Bool)
    (title : String) (items : List MenuItem) : MenuPDFGenerator :=
  let g1 := { g with story := g.story ++
      [Block.hrule true 1 "#d4af37",
       Block.sectionHeader title.toUpper,
       Block.hrule false 1 "#d4af37",
       Block.spacer 2] }
  let g2 := g1.addItems fs items
  { g2 with story := g2.story ++ [Block.spacer 3] }

/-- Method `add_info_box`: the bordered annotation table and a spacer. -/
def MenuPDFGenerator.add_info_box (g : MenuPDFGenerator) (text : String) :
    MenuPDFGenerator :=
  { g with story := g.story ++
      [Block.infoTable ("<i>✦ " ++ text ++ " ✦</i>"), Block.spacer 3] }

/-- The fixed contact-details markup of `add_contact_page`. -/
def contact_info : String :=
  "<b><font size=\"13\" color=\"#1a5d3f\">East @ West Restaurant</font></b><br/><br/><font size=\"9\">Bld de l\x27Empereur 26 • 1000 Brussels • Belgium</font><br/><br/><b><font color=\"#1a5d3f\">☎</font></b> <font size=\"9\">+32 465 20 60 24</font> • <b><font color=\"#1a5d3f\">✉</font></b> <font size=\"9\">contact@eastatwest.com</font>"

/-- Method `add_contact_page`: page break, spacer, the "Visit Us" title table,
spacer, the contact-details table, spacer, the call-to-action button,
spacer, the footer message, spacer, and the footer logo image only when
the path is truthy and exists. -/
def MenuPDFGenerator.add_contact_page (g : MenuPDFGenerator) (fs : String → Bool)
    (logo_path : String) : MenuPDFGenerator :=
  { g with story := g.story ++
      [Block.pageBreak,
       Block.spacer 30,
       Block.contactTitle "Visit Us",
       Block.spacer 15,
       Block.contactDetails contact_info,
       Block.spacer 15,
       Block.ctaButton "BOOK A TABLE",
       Block.spacer 12,
       Block.paragraph "<i>We look forward to serving you!</i>",
       Block.spacer 20] ++
      (if logo_path != "" && fs logo_path then [Block.image logo_path] else []) }

/-- Method `build`: hands the accumulated story, in full, to the renderer. -/
def MenuPDFGenerator.build (g : MenuPDFGenerator) : List Block :=
  g.story

/-! ## Embedding of the markup-conversion pipeline (`generate_menu_from_html.py`) -/

/-- The observable outcome of one run of `generate_pdf`: the returned
boolean, the lines printed, and the (input, output) pairs the HTML
renderer was invoked with.  The only code path that writes the output
file is a renderer invocation. -/
structure GenPdfRun where
  success : Bool
  printed : List String
  renderCalls : List (String × String)
deriving DecidableEq

/-- Function `generate_pdf`: resolves the HTML input and PDF output next to the
script directory, fails early (printing the missing path, invoking
nothing) when the input does not exist, and otherwise invokes the
renderer, catching any exception, printing its text and returning
`False`; on success it reports the output path and returns `True`. -/
def generate_pdf (fs : String → Bool)
    (render : String → String → Except String Unit) (dir : String) : GenPdfRun :=
  let html_file := dir ++ "/menu_editor.html"
  let output_pdf := dir ++ "/east_west_menu_final.pdf"
  if !fs html_file then
    { success := false
      printed := ["Error: HTML file not found at " ++ html_file]
      renderCalls := [] }
  else
    let pre := ["Reading HTML from: " ++ html_file, "Generating PDF..."]
    match render html_file output_pdf with
    | .ok _ =>
      { success := true
        printed := pre ++ ["✓ PDF generated successfully!", "✓ Saved to: " ++ output_pdf]
        renderCalls := [(html_file, output_pdf)] }
    | .error e =>
      { success := false
        printed := pre ++ ["Error generating PDF: " ++ e]
        renderCalls := [(html_file, output_pdf)] }

/-- The `__main__` guard of `generate_menu_from_html.py`:
`sys.exit(0 if success else 1)`. -/
def markupMainExitCode (fs : String → Bool)
    (render : String → String → Except String Unit) (dir : String) : Nat :=
  if (generate_pdf fs render dir).success then 0 else 1

/-! ## Embedding of the `main` routine of `generate_menu.py` -/

/-- The hardcoded logo path used by `main`. -/
def logo_path : String := "C:\\Users\\mbike\\.claude\\projects\\menu-project\\logo.png"

/-- The `cold_mezzes` literal of `main`. -/
def cold_mezzes : List MenuItem :=
  [⟨"Zahra", "Cooked cauliflower, marinated in a homemade sauce (tomato, garlic and lemon), topped with lemon tahini sauce", "7,50€", false, true⟩,
   ⟨"Muhammara", "Grilled red pepper dip, pomegranate molasses and walnuts", "8€", true, false⟩,
   ⟨"Makdous", "Baby eggplants stuffed with walnuts and peppers marinated in olive oil", "8€", true, false⟩,
   ⟨"Itch", "Bulgur cooked in tomato sauce with peppers, onion, parsley and pomegranate molasses", "7,50€", true, false⟩,
   ⟨"Hummus", "Chickpea puree with tahini (sesame paste)", "7,50€", true, false⟩,
   ⟨"Moutabal", "Grilled eggplant caviar with tahini (sesame paste)", "8€", true, false⟩,
   ⟨"Warak Enab", "Vine leaves stuffed with rice, herbs, marinated in olive oil, mint and pomegranate molasses", "7€", true, false⟩,
   ⟨"Moussaka", "Eggplant, onion, chickpeas and tomato", "7,50€", true, false⟩]

/-- The `warm_mezzes` literal of `main`. -/
def warm_mezzes : List MenuItem :=
  [⟨"Oriental Eggplant", "Grilled eggplant topped with minced meat cooked with onion, tomato and pepper", "13,50€", false, false⟩,
   ⟨"Chicken Liver", "Chicken liver cooked with onion and special spices. Served with pomegranate sauce", "11,50€", false, false⟩,
   ⟨"Fatteh", "Cooked chickpeas, fried Lebanese bread, garlic and homemade lemon tahini sauce", "7,50€", false, true⟩,
   ⟨"Falafel (2 pcs)", "Fried chickpea balls served with tahini sauce", "4€", true, false⟩,
   ⟨"Grilled Syrian Cheese", "Grilled Syrian cheese", "10€", false, true⟩,
   ⟨"Kibbeh (2 pcs)", "Fried bulgur croquettes stuffed with minced meat, onion and walnuts", "7€", false, false⟩,
   ⟨"Sujuk", "Oven-baked Lebanese bread stuffed with seasoned minced meat, tomato and pickles", "12,50€", false, false⟩,
   ⟨"Arayes Cheese", "Oven-baked Lebanese bread stuffed with Syrian cheese", "10€", false, true⟩,
   ⟨"Toshka", "Oven-baked Lebanese bread stuffed with minced meat and Syrian cheese", "12,50€", false, false⟩,
   ⟨"Batata Harra", "Fried potato cubes with red peppers, coriander and garlic", "7,50€", true, false⟩,
   ⟨"Foul Moudamas", "Fava beans marinated with lemon juice, tomatoes, cumin, garlic, olive oil and tahini sauce", "8€", true, false⟩]

/-- The `tasting_menus` literal of `main`. -/
def tasting_menus : List MenuItem :=
  [⟨"Menu East@West", "Fattoush, Hummus, Moutabal, Zahra, Falafel, 2× Kibbeh, 2× Kabab skewers, 2× Chich taouk, 2× Dessert", "67,50€", false, false⟩,
   ⟨"Menu Vegan", "Fattoush, Hummus, Moutabal, Moussaka, Itch, Zahra, 2× Falafel, Batata Harra, 2× Dessert", "64,50€", true, false⟩,
   ⟨"Menu Sahten", "Tabouleh, Hummus, Toshka, Sujuk, Chicken liver, 2× Kibbeh, 2× Skewers, 2× Dessert", "84€", false, false⟩,
   ⟨"Menu Lazeez", "Tabouleh, Hummus, Moutabal, Muhammara, Warak Enab, Moussaka, Foul Moudamas, 2× Falafel, 2× Dessert", "65,50€", true, false⟩]

/-- The `dishes` literal of `main`. -/
def dishes : List MenuItem :=
  [⟨"Foodie Meat", "Hummus, Zahra, Kibbeh, 1× Chich taouk, 1× Kabab, Foul moudamas, Fattouch", "24€", false, false⟩,
   ⟨"Foodie Vegan", "Hummus, Zahra, 2× Warak eneb, 2× Falafel, Batata harra, Foul moudamas, Fattouch", "24€", true, false⟩,
   ⟨"Chef\x27s Mezze", "Grilled minced meat with mushrooms, onion, lemon tahini sauce and parsley", "13,50€", false, false⟩]

/-- The `skewers` literal of `main`. -/
def skewers : List MenuItem :=
  [⟨"2× Shish Taouk", "Chicken skewers", "10€", false, false⟩,
   ⟨"2× Kebab", "Beef skewers", "10€", false, false⟩]

/-- The `lunch_dishes` literal of `main`. -/
def lunch_dishes : List MenuItem :=
  [⟨"Chef\x27s Dish", "1 kebab, 1 chich taouk, warak eneb, kibbeh, cauliflower, muhammara, fattouch", "23,50€", false, false⟩,
   ⟨"Sujuk", "Lebanese bread stuffed with minced meat, tomato, pickles + hummus, moutabal, Fattoush", "20,80€", false, false⟩,
   ⟨"Toshka", "Lebanese bread stuffed with minced meat and Syrian cheese + hummus, moutabal, Fattoush", "20,80€", false, false⟩,
   ⟨"Chich Taouk", "2 chicken skewers + hummus, itch (bulgur), fattoush, pickles, garlic sauce", "19€", false, false⟩,
   ⟨"Mix Grill", "1 kebab and 1 chich taouk + hummus, itch (bulgur), fattoush", "19€", false, false⟩,
   ⟨"Kebab", "2 seasoned minced meat skewers + hummus, fattoush", "19€", false, false⟩,
   ⟨"Mix Break", "Hummus, itch (bulgur), kabab/chich taouk, cauliflower, fattouch", "16,50€", false, false⟩,
   ⟨"Falafel", "4 pieces falafel + hummus, moutabal, Fattoush, tahini sauce, pickles", "18€", true, false⟩,
   ⟨"Mix Break Vegan", "Hummus, warak eneb, itch (bulgur), cauliflower, fattouch", "14,50€", true, false⟩]

/-- The `sandwiches` literal of `main`. -/
def sandwiches : List MenuItem :=
  [⟨"Falafel Sandwich + Fattoush Salad", "Falafel, tomato, tahini, pickles, lettuce", "12,50€", true, false⟩,
   ⟨"Chich Taouk + Fattoush Salad", "Grilled chicken, lettuce, tomato, garlic sauce", "12,50€", false, false⟩,
   ⟨"Kabab + Fattoush Salad", "Minced meat, hummus, tomato, lettuce, onion", "12,50€", false, false⟩]

/-- The `salads` literal of `main`. -/
def salads : List MenuItem :=
  [⟨"Original Tabouleh", "Parsley, tomato, onion, lemon, bulgur, mint", "8€", true, false⟩,
   ⟨"Fattoush", "Tomato, lettuce, red cabbage, radish, cucumber, onion", "8€", true, false⟩,
   ⟨"Falafel Salad", "Falafel, lettuce, cucumber, tomato, pickles, tahini", "13,50€", true, false⟩]

/-- The document tree `main` hands to the renderer via `build`, as a
function of the filesystem (the only external input the builder reads):
cover page, the eight sections interleaved with the three info boxes in
source order, then the contact page. -/
def mainStory (fs : String → Bool) : List Block :=
  let pdf := MenuPDFGenerator.init "east_west_menu.pdf"
  let pdf := pdf.add_cover_page fs logo_path
  let pdf := pdf.add_section fs "Cold Mezzes" cold_mezzes
  let pdf := pdf.add_section fs "Warm Mezzes" warm_mezzes
  let pdf := pdf.add_info_box "All tasting menus serve 2 people"
  let pdf := pdf.add_section fs "Tasting Menus / 2 People" tasting_menus
  let pdf := pdf.add_section fs "Dishes" dishes
  let pdf := pdf.add_info_box "All skewers served with garlic sauce and pickles"
  let pdf := pdf.add_section fs "Skewers" skewers
  let pdf := pdf.add_info_box "All dishes are served with Lebanese bread"
  let pdf := pdf.add_section fs "Lunch Dishes" lunch_dishes
  let pdf := pdf.add_section fs "Sandwich + Salad Formulas" sandwiches
  let pdf := pdf.add_section fs "Salads" salads
  let pdf := pdf.add_contact_page fs logo_path
  pdf.build

/-! ## Derived descriptions of the appended blocks -/

/-- The item table appended by `add_menu_item` for one menu item of a
section: the name cell chosen by `dietary_content`, the bold price and
the description, verbatim. -/
def itemBlock (g : MenuPDFGenerator) (fs : String → Bool) (it : MenuItem) : Block :=
  Block.itemTable (g.dietary_content fs it.name it.is_vegan it.is_vegetarian)
    ("<b>" ++ it.price ++ "</b>") it.description

/-- The blocks contributed by the item loop of `add_section`: one item
table and one spacer per item, in input order. -/
def itemsBlocks (g : MenuPDFGenerator) (fs : String → Bool) : List MenuItem → List Block
  | [] => []
  | it :: rest => itemBlock g fs it :: Block.spacer 1 :: itemsBlocks g fs rest

/-! ## Helper lemmas -/

/-- The computation `dietary_content` ignores the accumulated story. -/
theorem dietary_content_story_update (g : MenuPDFGenerator) (s : List Block)
    (fs : String → Bool) (nm : String) (v w : Bool) :
    MenuPDFGenerator.dietary_content { g with story := s } fs nm v w
      = g.dietary_content fs nm v w := rfl

/-- In every branch of `dietary_content` the name-cell paragraph is the
bold markup around the given name. -/
theorem dietary_content_text (g : MenuPDFGenerator) (fs : String → Bool)
    (nm : String) (v w : Bool) :
    (g.dietary_content fs nm v w).text = "<b>" ++ nm ++ "</b>" := by
  unfold MenuPDFGenerator.dietary_content
  split
  · rfl
  · split <;> rfl

/-- The list `itemsBlocks` ignores the accumulated story. -/
theorem itemsBlocks_story_update (g : MenuPDFGenerator) (s : List Block)
    (fs : String → Bool) (items : List MenuItem) :
    itemsBlocks { g with story := s } fs items = itemsBlocks g fs items := by
  induction items with
  | nil => rfl
  | cons x xs ih => simp [itemsBlocks, itemBlock, dietary_content_story_update, ih]

/-- The item loop of `add_section` appends exactly `itemsBlocks`. -/
theorem addItems_story (fs : String → Bool) (items : List MenuItem) :
    ∀ g : MenuPDFGenerator,
      (g.addItems fs items).story = g.story ++ itemsBlocks g fs items := by
  induction items with
  | nil => intro g; simp [MenuPDFGenerator.addItems, itemsBlocks]
  | cons x xs ih =>
    intro g
    have h0 : g.addItems fs (x :: xs)
        = (g.add_menu_item fs x.name x.description x.price
            x.is_vegan x.is_vegetarian).addItems fs xs := rfl
    rw [h0, ih]
    simp [MenuPDFGenerator.add_menu_item, itemsBlocks_story_update,
      itemsBlocks, itemBlock]

/-- The full block suffix appended by `add_section`. -/
theorem add_section_story (g : MenuPDFGenerator) (fs : String → Bool)
    (title : String) (items : List MenuItem) :
    (g.add_section fs title items).story =
      g.story ++ [Block.hrule true 1 "#d4af37", Block.sectionHeader title.toUpper,
        Block.hrule false 1 "#d4af37", Block.spacer 2]
      ++ itemsBlocks g fs items ++ [Block.spacer 3] := by
  simp only [MenuPDFGenerator.add_section]
  rw [addItems_story]
  simp [itemsBlocks_story_update, List.append_assoc]

@[simp] theorem isSectionHeader_itemBlock (g : MenuPDFGenerator)
    (fs : String → Bool) (it : MenuItem) :
    (itemBlock g fs it).isSectionHeader = false := rfl

@[simp] theorem isItemTable_itemBlock (g : MenuPDFGenerator)
    (fs : String → Bool) (it : MenuItem) :
    (itemBlock g fs it).isItemTable = true := rfl

@[simp] theorem isSectionHeader_spacer (n : Nat) :
    (Block.spacer n).isSectionHeader = false := rfl

@[simp] theorem isItemTable_spacer (n : Nat) :
    (Block.spacer n).isItemTable = false := rfl

@[simp] theorem isSectionHeader_hrule (a : Bool) (t : Nat) (c : String) :
    (Block.hrule a t c).isSectionHeader = false := rfl

@[simp] theorem isItemTable_hrule (a : Bool) (t : Nat) (c : String) :
    (Block.hrule a t c).isItemTable = false := rfl

@[simp] theorem isSectionHeader_sectionHeader (t : String) :
    (Block.sectionHeader t).isSectionHeader = true := rfl

@[simp] theorem isItemTable_sectionHeader (t : String) :
    (Block.sectionHeader t).isItemTable = false := rfl

/-- The item loop appends no section header. -/
theorem itemsBlocks_filter_sectionHeader (g : MenuPDFGenerator)
    (fs : String → Bool) (items : List MenuItem) :
    (itemsBlocks g fs items).filter Block.isSectionHeader = [] := by
  induction items with
  | nil => rfl
  | cons x xs ih =>
    simp [itemsBlocks, ih]

/-- Restricted to headers and item rows, the item loop contributes exactly
one item table per item, in order. -/
theorem itemsBlocks_filter_headerOrItem (g : MenuPDFGenerator)
    (fs : String → Bool) (items : List MenuItem) :
    (itemsBlocks g fs items).filter (fun b => b.isSectionHeader || b.isItemTable)
      = items.map (itemBlock g fs) := by
  induction items with
  | nil => rfl
  | cons x xs ih =>
    simp [itemsBlocks, ih]

/-! ## Claims -/

/-- C1: every call `add_section(title, items)` with N items only appends
blocks, and among them exactly one section header, showing the title in
upper case, followed by exactly N item tables, one per input item in
input order, each carrying the given name (inside the bold name-cell
markup), the given description verbatim and the given price (inside the
bold price markup). -/
theorem add_section_blocks (g : MenuPDFGenerator) (fs : String → Bool)
    (title : String) (items : List MenuItem) :
    ∃ s, (g.add_section fs title items).story = g.story ++ s
      ∧ s.filter Block.isSectionHeader = [Block.sectionHeader title.toUpper]
      ∧ s.filter (fun b => b.isSectionHeader || b.isItemTable)
          = Block.sectionHeader title.toUpper :: items.map (itemBlock g fs)
      ∧ (∀ it : MenuItem, itemBlock g fs it
          = Block.itemTable (g.dietary_content fs it.name it.is_vegan it.is_vegetarian)
              ("<b>" ++ it.price ++ "</b>") it.description)
      ∧ (∀ it : MenuItem,
          (g.dietary_content fs it.name it.is_vegan it.is_vegetarian).text
            = "<b>" ++ it.name ++ "</b>") := by
  refine ⟨[Block.hrule true 1 "#d4af37", Block.sectionHeader title.toUpper,
      Block.hrule false 1 "#d4af37", Block.spacer 2]
      ++ itemsBlocks g fs items ++ [Block.spacer 3], ?_, ?_, ?_,
    fun it => rfl, fun it => dietary_content_text g fs it.name it.is_vegan it.is_vegetarian⟩
  · rw [add_section_story]
    simp [List.append_assoc]
  · simp [List.filter_append, itemsBlocks_filter_sectionHeader]
  · simp [List.filter_append, itemsBlocks_filter_headerOrItem]

/-- C2 counterexample: with both flags true, the vegan icon file absent
and the vegetarian icon file present, the produced item block shows the
vegetarian icon even though `is_vegan` is true — the claimed tie-break
"regardless of icon-file presence" fails. -/
theorem vegan_flag_counterexample :
    ((MenuPDFGenerator.init "east_west_menu.pdf").add_menu_item
        (fun p => p == vegetarian_icon_file)
        "Hummus" "Chickpea puree with tahini (sesame paste)" "7,50€" true true).story
      = [Block.itemTable
          (NameCell.withIcon vegetarian_icon_file "<b>Hummus</b>")
          "<b>7,50€</b>" "Chickpea puree with tahini (sesame paste)",
         Block.spacer 1]
    ∧ vegetarian_icon_file ≠ vegan_icon_file := by
  constructor
  · rfl
  · decide

/-- C2 (amended): when the vegan icon path is set and its file exists,
every `add_menu_item` call with `is_vegan` true shows the vegan icon and
never the vegetarian icon, whatever `is_vegetarian` is: the first-checked
vegan branch wins. -/
theorem vegan_icon_precedence (g : MenuPDFGenerator) (fs : String → Bool)
    (name description price : String) (is_vegetarian : Bool)
    (hne : g.vegan_icon_path ≠ "")
    (hfs : fs g.vegan_icon_path = true) :
    (g.add_menu_item fs name description price true is_vegetarian).story =
      g.story ++ [Block.itemTable
        (NameCell.withIcon g.vegan_icon_path ("<b>" ++ name ++ "</b>"))
        ("<b>" ++ price ++ "</b>") description, Block.spacer 1] := by
  simp [MenuPDFGenerator.add_menu_item, MenuPDFGenerator.dietary_content, hne, hfs]

/-- Witness for the amended C2 at concrete inputs. -/
theorem vegan_icon_precedence_witness :
    ((MenuPDFGenerator.init "east_west_menu.pdf").vegan_icon_path ≠ "")
    ∧ ((fun _ : String => true) (MenuPDFGenerator.init "east_west_menu.pdf").vegan_icon_path
        = true)
    ∧ (((MenuPDFGenerator.init "east_west_menu.pdf").add_menu_item (fun _ : String => true)
          "Hummus" "Chickpea puree with tahini (sesame paste)" "7,50€" true true).story =
        (MenuPDFGenerator.init "east_west_menu.pdf").story ++
          [Block.itemTable
            (NameCell.withIcon (MenuPDFGenerator.init "east_west_menu.pdf").vegan_icon_path
              ("<b>" ++ "Hummus" ++ "</b>"))
            ("<b>" ++ "7,50€" ++ "</b>") "Chickpea puree with tahini (sesame paste)",
           Block.spacer 1]) :=
  ⟨by decide, rfl,
   vegan_icon_precedence (MenuPDFGenerator.init "east_west_menu.pdf") (fun _ => true)
     "Hummus" "Chickpea puree with tahini (sesame paste)" "7,50€" true (by decide) rfl⟩

/-- C10: with both flags true, when the vegan icon file is absent but the
vegetarian icon file is present, the `elif` falls through and the item
block shows the vegetarian icon — not a name-only block. -/
theorem vegetarian_fallthrough (g : MenuPDFGenerator) (fs : String → Bool)
    (name description price : String)
    (h1 : fs g.vegan_icon_path = false)
    (h2 : g.vegetarian_icon_path ≠ "")
    (h3 : fs g.vegetarian_icon_path = true) :
    (g.add_menu_item fs name description price true true).story =
      g.story ++ [Block.itemTable
        (NameCell.withIcon g.vegetarian_icon_path ("<b>" ++ name ++ "</b>"))
        ("<b>" ++ price ++ "</b>") description, Block.spacer 1] := by
  simp [MenuPDFGenerator.add_menu_item, MenuPDFGenerator.dietary_content, h1, h2, h3]

/-- Witness for C10 at concrete inputs. -/
theorem vegetarian_fallthrough_witness :
    ((fun p => p == vegetarian_icon_file)
        (MenuPDFGenerator.init "east_west_menu.pdf").vegan_icon_path = false)
    ∧ ((MenuPDFGenerator.init "east_west_menu.pdf").vegetarian_icon_path ≠ "")
    ∧ ((fun p => p == vegetarian_icon_file)
        (MenuPDFGenerator.init "east_west_menu.pdf").vegetarian_icon_path = true)
    ∧ (((MenuPDFGenerator.init "east_west_menu.pdf").add_menu_item
          (fun p => p == vegetarian_icon_file) "Falafel" "Fried chickpea balls" "4€"
          true true).story =
        (MenuPDFGenerator.init "east_west_menu.pdf").story ++
          [Block.itemTable
            (NameCell.withIcon
              (MenuPDFGenerator.init "east_west_menu.pdf").vegetarian_icon_path
              ("<b>" ++ "Falafel" ++ "</b>"))
            ("<b>" ++ "4€" ++ "</b>") "Fried chickpea balls", Block.spacer 1]) :=
  ⟨by decide, by decide, by decide,
   vegetarian_fallthrough (MenuPDFGenerator.init "east_west_menu.pdf")
     (fun p => p == vegetarian_icon_file) "Falafel" "Fried chickpea balls" "4€"
     (by decide) (by decide) (by decide)⟩

/-- C4: when the icon file of each set dietary flag is absent on the
filesystem, the item block is still produced (no error), containing only
the bare name cell — the icon is silently omitted. -/
theorem icon_missing_name_only (g : MenuPDFGenerator) (fs : String → Bool)
    (name description price : String) (is_vegan is_vegetarian : Bool)
    (h1 : is_vegan = true → fs g.vegan_icon_path = false)
    (h2 : is_vegetarian = true → fs g.vegetarian_icon_path = false) :
    (g.add_menu_item fs name description price is_vegan is_vegetarian).story =
      g.story ++ [Block.itemTable (NameCell.plain ("<b>" ++ name ++ "</b>"))
        ("<b>" ++ price ++ "</b>") description, Block.spacer 1] := by
  cases is_vegan <;> cases is_vegetarian <;>
    simp_all [MenuPDFGenerator.add_menu_item, MenuPDFGenerator.dietary_content]

/-- Witness for C4 at concrete inputs. -/
theorem icon_missing_name_only_witness :
    (true = true → (fun _ : String => false)
        (MenuPDFGenerator.init "east_west_menu.pdf").vegan_icon_path = false)
    ∧ (false = true → (fun _ : String => false)
        (MenuPDFGenerator.init "east_west_menu.pdf").vegetarian_icon_path = false)
    ∧ (((MenuPDFGenerator.init "east_west_menu.pdf").add_menu_item (fun _ : String => false)
          "Muhammara" "Grilled red pepper dip" "8€" true false).story =
        (MenuPDFGenerator.init "east_west_menu.pdf").story ++
          [Block.itemTable (NameCell.plain ("<b>" ++ "Muhammara" ++ "</b>"))
            ("<b>" ++ "8€" ++ "</b>") "Grilled red pepper dip", Block.spacer 1]) :=
  ⟨fun _ => rfl, by decide,
   icon_missing_name_only (MenuPDFGenerator.init "east_west_menu.pdf")
     (fun _ => false) "Muhammara" "Grilled red pepper dip" "8€" true false
     (fun _ => rfl) (by decide)⟩

/-- C5: every builder method only appends to the accumulated block
sequence — whatever the arguments, the new story is the old story with a
suffix, so previously appended blocks are never removed, reordered or
mutated, and any sequence of calls yields the blocks in call order. -/
theorem builder_append_only (g : MenuPDFGenerator) (fs : String → Bool)
    (lp title text name description price : String) (v w : Bool)
    (items : List MenuItem) :
    (∃ s, (g.add_cover_page fs lp).story = g.story ++ s)
    ∧ (∃ s, (g.add_section fs title items).story = g.story ++ s)
    ∧ (∃ s, (g.add_menu_item fs name description price v w).story = g.story ++ s)
    ∧ (∃ s, (g.add_info_box text).story = g.story ++ s)
    ∧ (∃ s, (g.add_contact_page fs lp).story = g.story ++ s) := by
  refine ⟨⟨[Block.spacer 8, Block.hrule true 2 "#1a5d3f", Block.spacer 15]
      ++ ((if lp != "" && fs lp then [Block.image lp, Block.spacer 12] else [])
      ++ [Block.boxedParagraph "✦ Authentic Lebanese & Syrian Cuisine ✦",
          Block.spacer 8, Block.paragraph "Brussels, Belgium • 2025",
          Block.spacer 15, Block.hrule false 2 "#1a5d3f", Block.pageBreak]), ?_⟩,
    ⟨[Block.hrule true 1 "#d4af37", Block.sectionHeader title.toUpper,
      Block.hrule false 1 "#d4af37", Block.spacer 2]
      ++ (itemsBlocks g fs items ++ [Block.spacer 3]), ?_⟩,
    ⟨_, rfl⟩, ⟨_, rfl⟩,
    ⟨[Block.pageBreak, Block.spacer 30, Block.contactTitle "Visit Us",
      Block.spacer 15, Block.contactDetails contact_info, Block.spacer 15,
      Block.ctaButton "BOOK A TABLE", Block.spacer 12,
      Block.paragraph "<i>We look forward to serving you!</i>", Block.spacer 20]
      ++ (if lp != "" && fs lp then [Block.image lp] else []), ?_⟩⟩
  · simp [MenuPDFGenerator.add_cover_page, List.append_assoc]
  · rw [add_section_story]
    simp [List.append_assoc]
  · simp [MenuPDFGenerator.add_contact_page, List.append_assoc]

/-- C8: `add_cover_page` appends a suffix whose final block is the forced
page break; the logo image appears in it exactly when the path is set and
exists on the filesystem (silently omitted otherwise, with no error); and
the remaining cover blocks — rules, boxed title line, location line and
the page break — are appended the same way in both cases. -/
theorem add_cover_page_blocks (g : MenuPDFGenerator) (fs : String → Bool)
    (lp : String) :
    ∃ s, (g.add_cover_page fs lp).story = g.story ++ s
      ∧ s.getLast? = some Block.pageBreak
      ∧ s.filter Block.isImage
          = (if lp != "" && fs lp then [Block.image lp] else [])
      ∧ s.filter (fun b => !(b.isImage || b.isSpacer))
          = [Block.hrule true 2 "#1a5d3f",
             Block.boxedParagraph "✦ Authentic Lebanese & Syrian Cuisine ✦",
             Block.paragraph "Brussels, Belgium • 2025",
             Block.hrule false 2 "#1a5d3f",
             Block.pageBreak] := by
  cases hc : lp != "" && fs lp with
  | false =>
    refine ⟨[Block.spacer 8, Block.hrule true 2 "#1a5d3f", Block.spacer 15,
      Block.boxedParagraph "✦ Authentic Lebanese & Syrian Cuisine ✦",
      Block.spacer 8, Block.paragraph "Brussels, Belgium • 2025",
      Block.spacer 15, Block.hrule false 2 "#1a5d3f", Block.pageBreak],
      ?_, rfl, rfl, rfl⟩
    simp [MenuPDFGenerator.add_cover_page, hc, List.append_assoc]
  | true =>
    refine ⟨[Block.spacer 8, Block.hrule true 2 "#1a5d3f", Block.spacer 15,
      Block.image lp, Block.spacer 12,
      Block.boxedParagraph "✦ Authentic Lebanese & Syrian Cuisine ✦",
      Block.spacer 8, Block.paragraph "Brussels, Belgium • 2025",
      Block.spacer 15, Block.hrule false 2 "#1a5d3f", Block.pageBreak],
      ?_, rfl, rfl, rfl⟩
    simp [MenuPDFGenerator.add_cover_page, hc, List.append_assoc]

/-- C3: when the input HTML file does not exist, `generate_pdf` returns
the failure signal without raising, prints the diagnostic naming the
missing path, and never invokes the rendering collaborator (the only code
path that writes the output file). -/
theorem generate_pdf_missing_input (fs : String → Bool)
    (render : String → String → Except String Unit) (dir : String)
    (h : fs (dir ++ "/menu_editor.html") = false) :
    (generate_pdf fs render dir).success = false
    ∧ (generate_pdf fs render dir).renderCalls = []
    ∧ (generate_pdf fs render dir).printed
        = ["Error: HTML file not found at " ++ (dir ++ "/menu_editor.html")] := by
  simp [generate_pdf, h]

/-- Witness for C3 at concrete inputs. -/
theorem generate_pdf_missing_input_witness :
    ((fun _ : String => false) ("." ++ "/menu_editor.html") = false)
    ∧ ((generate_pdf (fun _ : String => false)
          (fun _ _ => Except.ok ()) ".").success = false
      ∧ (generate_pdf (fun _ : String => false)
          (fun _ _ => Except.ok ()) ".").renderCalls = []
      ∧ (generate_pdf (fun _ : String => false)
          (fun _ _ => Except.ok ()) ".").printed
          = ["Error: HTML file not found at " ++ ("." ++ "/menu_editor.html")]) :=
  ⟨rfl, generate_pdf_missing_input (fun _ => false) (fun _ _ => Except.ok ()) "." rfl⟩

/-- C6: when the input file exists and the rendering collaborator raises
(any error text), `generate_pdf` catches it, prints the underlying error
text and returns the failure signal instead of propagating. -/
theorem generate_pdf_renderer_error (fs : String → Bool)
    (render : String → String → Except String Unit) (dir : String) (e : String)
    (hfs : fs (dir ++ "/menu_editor.html") = true)
    (hr : render (dir ++ "/menu_editor.html") (dir ++ "/east_west_menu_final.pdf")
        = Except.error e) :
    (generate_pdf fs render dir).success = false
    ∧ ("Error generating PDF: " ++ e) ∈ (generate_pdf fs render dir).printed := by
  simp [generate_pdf, hfs, hr]

/-- Witness for C6 at concrete inputs. -/
theorem generate_pdf_renderer_error_witness :
    ((fun _ : String => true) ("." ++ "/menu_editor.html") = true)
    ∧ ((fun _ _ : String => (Except.error "boom" : Except String Unit))
        ("." ++ "/menu_editor.html") ("." ++ "/east_west_menu_final.pdf")
        = Except.error "boom")
    ∧ ((generate_pdf (fun _ : String => true)
          (fun _ _ => Except.error "boom") ".").success = false
      ∧ ("Error generating PDF: " ++ "boom")
          ∈ (generate_pdf (fun _ : String => true)
              (fun _ _ => Except.error "boom") ".").printed) :=
  ⟨rfl, rfl,
   generate_pdf_renderer_error (fun _ => true) (fun _ _ => Except.error "boom")
     "." "boom" rfl rfl⟩

/-- C9: the `__main__` guard of the markup pipeline exits with code 0
exactly when `generate_pdf` reports success and with code 1 (via
`sys.exit(1)`) exactly when it reports failure. -/
theorem markup_exit_code (fs : String → Bool)
    (render : String → String → Except String Unit) (dir : String) :
    (markupMainExitCode fs render dir = 0
      ↔ (generate_pdf fs render dir).success = true)
    ∧ (markupMainExitCode fs render dir = 1
      ↔ (generate_pdf fs render dir).success = false) := by
  unfold markupMainExitCode
  cases h : (generate_pdf fs render dir).success <;> simp [h]

/-! ## Determinism of the structured pipeline -/

/-- The computation `dietary_content` reads the filesystem only at the two icon paths. -/
theorem dietary_content_fs_congr (g : MenuPDFGenerator) (fs fs' : String → Bool)
    (nm : String) (v w : Bool)
    (h1 : fs g.vegan_icon_path = fs' g.vegan_icon_path)
    (h2 : fs g.vegetarian_icon_path = fs' g.vegetarian_icon_path) :
    g.dietary_content fs nm v w = g.dietary_content fs' nm v w := by
  unfold MenuPDFGenerator.dietary_content
  rw [h1, h2]

/-- Method `add_menu_item` reads the filesystem only at the two icon paths. -/
theorem add_menu_item_fs_congr (g : MenuPDFGenerator) (fs fs' : String → Bool)
    (n d p : String) (v w : Bool)
    (h1 : fs g.vegan_icon_path = fs' g.vegan_icon_path)
    (h2 : fs g.vegetarian_icon_path = fs' g.vegetarian_icon_path) :
    g.add_menu_item fs n d p v w = g.add_menu_item fs' n d p v w := by
  unfold MenuPDFGenerator.add_menu_item
  rw [dietary_content_fs_congr g fs fs' n v w h1 h2]

/-- The item loop reads the filesystem only at the two icon paths. -/
theorem addItems_fs_congr (fs fs' : String → Bool) (items : List MenuItem) :
    ∀ g : MenuPDFGenerator,
      fs g.vegan_icon_path = fs' g.vegan_icon_path →
      fs g.vegetarian_icon_path = fs' g.vegetarian_icon_path →
      g.addItems fs items = g.addItems fs' items := by
  induction items with
  | nil => intro g h1 h2; rfl
  | cons x xs ih =>
    intro g h1 h2
    show (g.add_menu_item fs x.name x.description x.price
        x.is_vegan x.is_vegetarian).addItems fs xs
      = (g.add_menu_item fs' x.name x.description x.price
        x.is_vegan x.is_vegetarian).addItems fs' xs
    rw [add_menu_item_fs_congr g fs fs' x.name x.description x.price
      x.is_vegan x.is_vegetarian h1 h2]
    exact ih _ h1 h2

/-- Method `add_section` reads the filesystem only at the two icon paths. -/
theorem add_section_fs_congr (g : MenuPDFGenerator) (fs fs' : String → Bool)
    (title : String) (items : List MenuItem)
    (h1 : fs g.vegan_icon_path = fs' g.vegan_icon_path)
    (h2 : fs g.vegetarian_icon_path = fs' g.vegetarian_icon_path) :
    g.add_section fs title items = g.add_section fs' title items := by
  simp only [MenuPDFGenerator.add_section]
  rw [addItems_fs_congr fs fs' items
    { g with story := g.story ++
        [Block.hrule true 1 "#d4af37", Block.sectionHeader title.toUpper,
         Block.hrule false 1 "#d4af37", Block.spacer 2] } h1 h2]

/-- Method `add_cover_page` reads the filesystem only at the logo path. -/
theorem add_cover_page_fs_congr (g : MenuPDFGenerator) (fs fs' : String → Bool)
    (lp : String) (h : fs lp = fs' lp) :
    g.add_cover_page fs lp = g.add_cover_page fs' lp := by
  unfold MenuPDFGenerator.add_cover_page
  rw [h]

/-- Method `add_contact_page` reads the filesystem only at the logo path. -/
theorem add_contact_page_fs_congr (g : MenuPDFGenerator) (fs fs' : String → Bool)
    (lp : String) (h : fs lp = fs' lp) :
    g.add_contact_page fs lp = g.add_contact_page fs' lp := by
  unfold MenuPDFGenerator.add_contact_page
  rw [h]

/-- C7: the structured pipeline is a deterministic function of its inputs
and the asset-existence checks — two runs of `main`'s builder under
filesystems that agree on the three referenced asset paths (logo, vegan
icon, vegetarian icon) produce identical document trees, textual content
included. -/
theorem mainStory_deterministic (fs fs' : String → Bool)
    (h1 : fs logo_path = fs' logo_path)
    (h2 : fs vegan_icon_file = fs' vegan_icon_file)
    (h3 : fs vegetarian_icon_file = fs' vegetarian_icon_file) :
    mainStory fs = mainStory fs' := by
  simp only [mainStory, MenuPDFGenerator.build]
  rw [add_cover_page_fs_congr (MenuPDFGenerator.init "east_west_menu.pdf")
    fs fs' logo_path h1]
  rw [add_section_fs_congr _ fs fs' "Cold Mezzes" cold_mezzes h2 h3]
  rw [add_section_fs_congr _ fs fs' "Warm Mezzes" warm_mezzes h2 h3]
  rw [add_section_fs_congr _ fs fs' "Tasting Menus / 2 People" tasting_menus h2 h3]
  rw [add_section_fs_congr _ fs fs' "Dishes" dishes h2 h3]
  rw [add_section_fs_congr _ fs fs' "Skewers" skewers h2 h3]
  rw [add_section_fs_congr _ fs fs' "Lunch Dishes" lunch_dishes h2 h3]
  rw [add_section_fs_congr _ fs fs' "Sandwich + Salad Formulas" sandwiches h2 h3]
  rw [add_section_fs_congr _ fs fs' "Salads" salads h2 h3]
  rw [add_contact_page_fs_congr _ fs fs' logo_path h1]

/-- Witness for C7 at concrete filesystems agreeing on the asset paths. -/
theorem mainStory_deterministic_witness :
    ((fun _ : String => true) logo_path = (fun s : String => !s.isEmpty) logo_path)
    ∧ ((fun _ : String => true) vegan_icon_file
        = (fun s : String => !s.isEmpty) vegan_icon_file)
    ∧ ((fun _ : String => true) vegetarian_icon_file
        = (fun s : String => !s.isEmpty) vegetarian_icon_file)
    ∧ mainStory (fun _ : String => true) = mainStory (fun s : String => !s.isEmpty) :=
  ⟨by decide, by decide, by decide,
   mainStory_deterministic (fun _ => true) (fun s => !s.isEmpty)
     (by decide) (by decide) (by decide)⟩
